import Mathlib

/-!
# Foodgram backend: shallow embedding and verification

This file embeds, in Lean 4, the business logic of the `foodgram` recipe
backend (`backend/api/serializers.py`, `backend/api/views.py`,
`backend/users/models.py`, `backend/recipes/models.py`,
`backend/recipes/management/commands/import_data_into_db.py`) and proves
the specified properties about it.

Modelling conventions:
* database tables become Lean lists of rows; primary keys become `Nat`;
* Django/DRF `ValidationError` and HTTP error responses become `Except`
  values or explicit response constructors;
* `django.utils.baseconv.base64` (used for recipe short links) is embedded
  directly from its Python source, including its behaviour on `0` and on
  the empty string (where the Python raises).
-/

namespace Foodgram

/-! ## Recipe payload validation (`RecipeCreateSerializer`)

`serializers.py`: `validate_ingredients` rejects an empty list, a repeated
ingredient id (`len(set(ids)) != len(ids)`), and the first entry whose
`amount <= 0`; `validate_tags` rejects an empty list and a repeated tag id.
An ingredient entry is `(ingredient id, amount)`; amounts are DRF
`IntegerField` values, so `Int`. -/

/-- One entry of the `ingredients` payload list: `(ingredient id, amount)`. -/
abbrev IngredientEntry := Nat × Int

/-- `RecipeCreateSerializer.validate_ingredients`. -/
def validate_ingredients (ingredients : List IngredientEntry) :
    Except String (List IngredientEntry) :=
  if ingredients = [] then
    .error "Требуется хотя бы один ингредиент"
  else
    let ingredient_ids := ingredients.map Prod.fst
    if ingredient_ids.dedup.length ≠ ingredient_ids.length then
      .error "Нельзя дублировать ингредиенты"
    else
      match ingredients.find? (fun ingredient => ingredient.2 ≤ 0) with
      | some _ => .error "Количество ингредиентов должно быть больше нуля."
      | none => .ok ingredients

/-- `RecipeCreateSerializer.validate_tags`. -/
def validate_tags (tags : List Nat) : Except String (List Nat) :=
  if tags = [] then
    .error "Требуется хотя бы один тег"
  else
    if tags.dedup.length ≠ tags.length then
      .error "Нельзя дублировать теги"
    else
      .ok tags

/-- The cross-field `attrs` dictionary reaching
`RecipeCreateSerializer.validate`: each list field is absent (`none`) or
present with a value (`attrs.get(field, [])` in the source). -/
structure RecipeAttrs where
  ingredients : Option (List IngredientEntry)
  tags : Option (List Nat)

/-- `RecipeCreateSerializer.validate`: runs `validate_ingredients` on
`attrs.get('ingredients', [])` and `validate_tags` on
`attrs.get('tags', [])`, propagating the first `ValidationError`. -/
def validate_recipe (attrs : RecipeAttrs) :
    Except String (List IngredientEntry × List Nat) := do
  let ingredients ← validate_ingredients (attrs.ingredients.getD [])
  let tags ← validate_tags (attrs.tags.getD [])
  return (ingredients, tags)

/-! ## Favorite / shopping-cart / follow relation toggles

Each relation table is a list of `(user id, target id)` pairs. The
serializer `validate_…` checks plus the view's create/delete call are
embedded as one `Except`-valued operation per endpoint. Django's
`.get(...).delete()` removes the single matching row; by the table's
`UniqueConstraint` on `(user, target)` at most one row matches, so
deletion is embedded as filtering the pair out. -/

/-- A `(user, target)` relation table (Favorite, ShoppingCart or Follow). -/
abbrev RelationTable := List (Nat × Nat)

/-- `POST /recipes/{pk}/favorite/`: `FavoriteSerializer.validate_recipe`
(POST branch) then `Favorite.objects.get_or_create`. -/
def favorite_add (user recipe : Nat) (favorites : RelationTable) :
    Except String RelationTable :=
  if (user, recipe) ∈ favorites then
    .error "Рецепт уже есть в избранном"
  else
    .ok ((user, recipe) :: favorites)

/-- `DELETE /recipes/{pk}/favorite/`: `FavoriteSerializer.validate_recipe`
(DELETE branch) then `Favorite.objects.get(...).delete()`. -/
def favorite_remove (user recipe : Nat) (favorites : RelationTable) :
    Except String RelationTable :=
  if (user, recipe) ∈ favorites then
    .ok (favorites.filter (fun row => row ≠ (user, recipe)))
  else
    .error "Рецепт не найден в избранном"

/-- `POST /recipes/{pk}/shopping_cart/`:
`ShoppingCartSerializer.validate_recipe` (POST branch) then
`ShoppingCart.objects.create`. -/
def shopping_cart_add (user recipe : Nat) (cart : RelationTable) :
    Except String RelationTable :=
  if (user, recipe) ∈ cart then
    .error "Рецепт уже есть в корзине"
  else
    .ok ((user, recipe) :: cart)

/-- `RecipeViewSet.delete` (shopping-cart removal):
`ShoppingCartSerializer.validate_recipe` (DELETE branch) then
`ShoppingCart.objects.get(...).delete()`. -/
def shopping_cart_remove (user recipe : Nat) (cart : RelationTable) :
    Except String RelationTable :=
  if (user, recipe) ∈ cart then
    .ok (cart.filter (fun row => row ≠ (user, recipe)))
  else
    .error "Рецепт не найден в корзине"

/-- `POST /users/{id}/subscribe/`: `FollowSerializer.validate_author`
(self-follow check, then duplicate check) then `serializer.save()`. -/
def follow_add (user author : Nat) (follows : RelationTable) :
    Except String RelationTable :=
  if user = author then
    .error "Вы не можете подписаться на себя."
  else if (user, author) ∈ follows then
    .error "Вы уже подписаны на этого пользователя."
  else
    .ok ((user, author) :: follows)

/-- `UserViewSet.delete` (unsubscribe): a 400 response when no
`Follow(user, author)` row exists, else `follow.delete()`. -/
def follow_remove (user author : Nat) (follows : RelationTable) :
    Except String RelationTable :=
  if (user, author) ∈ follows then
    .ok (follows.filter (fun row => row ≠ (user, author)))
  else
    .error "Подписка не найдена"

/-- An API operation touching the `Follow` table. -/
inductive FollowOp where
  | add : Nat → Nat → FollowOp
  | remove : Nat → Nat → FollowOp

/-- Run one follow operation; a rejected request leaves the table as is. -/
def apply_follow_op (follows : RelationTable) : FollowOp → RelationTable
  | .add user author =>
      match follow_add user author follows with
      | .ok follows' => follows'
      | .error _ => follows
  | .remove user author =>
      match follow_remove user author follows with
      | .ok follows' => follows'
      | .error _ => follows

/-- Run a sequence of follow operations from the empty `Follow` table. -/
def apply_follow_ops (ops : List FollowOp) : RelationTable :=
  ops.foldl apply_follow_op []

/-! ## Recipe ingredient rows and `RecipeCreateSerializer.update`

`RecipeIngredient` rows (`recipes/models.py`): `(recipe id, ingredient id,
amount)` with `amount` a `PositiveIntegerField`. `update` deletes
`instance.recipe_ingredient.all()` and then `bulk_create`s one row per
payload entry (`add_ingredients`). -/

/-- One `RecipeIngredient` table row. -/
structure RecipeIngredientRow where
  recipe : Nat
  ingredient : Nat
  amount : Int
  deriving DecidableEq, Repr

/-- `RecipeCreateSerializer.add_ingredients`: `bulk_create` appends one row
per `(ingredient, amount)` payload entry for the given recipe. -/
def add_ingredients (ingredients : List IngredientEntry) (recipe : Nat)
    (rows : List RecipeIngredientRow) : List RecipeIngredientRow :=
  rows ++ ingredients.map (fun entry =>
    { recipe := recipe, ingredient := entry.1, amount := entry.2 })

/-- `RecipeCreateSerializer.update`, restricted to the `RecipeIngredient`
table: `instance.recipe_ingredient.all().delete()` then
`add_ingredients(ingredients, instance)`. -/
def update_recipe_ingredients (recipe : Nat)
    (ingredients : List IngredientEntry)
    (rows : List RecipeIngredientRow) : List RecipeIngredientRow :=
  add_ingredients ingredients recipe
    (rows.filter (fun row => row.recipe ≠ recipe))

/-! ## Short links: `django.utils.baseconv.base64`

`views.py` encodes `recipe.id` with `baseconv.base64.encode` and decodes
tokens with `baseconv.base64.decode` after checking every character
against `baseconv.BASE64_ALPHABET`. The converter is
`BaseConverter(BASE64_ALPHABET, sign='$')`: `encode` repeatedly takes
`x % 64` / `x //= 64` producing most-significant digit first (the loop
runs only while `x > 0`, so `encode(0) == ''`); `decode` checks the first
character against the sign (raising `IndexError` on an empty string),
folds the digits via `alphabet.index` (raising `ValueError` for a
character outside the alphabet), renders the value in decimal (the empty
string when the value is 0) and applies `int` (raising `ValueError` on the
empty string). A raised exception is embedded as `none`; recipe ids are
non-negative, so `encode`'s negative branch is never taken and is embedded
only on the `decode` side (the `'$'` sign prefix). -/

/-- `baseconv.BASE64_ALPHABET = BASE62_ALPHABET + '-_'`. -/
def BASE64_ALPHABET : List Char :=
  "0123456789ABCDEFGHIJKLMNOPQRSTUVWXYZabcdefghijklmnopqrstuvwxyz-_".data

/-- `to_digits[x % 64]` (always in bounds since `x % 64 < 64`). -/
def base64_digit (i : Nat) : Char := BASE64_ALPHABET.getD i '0'

/-- The digit loop of `BaseConverter.convert` towards base 64: digits of
`x`, most significant first; empty for `x = 0`. -/
def nat_to_base64 (x : Nat) : List Char :=
  if h : x = 0 then []
  else nat_to_base64 (x / 64) ++ [base64_digit (x % 64)]
  decreasing_by exact Nat.div_lt_self (Nat.pos_of_ne_zero h) (by norm_num)

/-- `baseconv.base64.encode` on a non-negative id. -/
def base64_encode (n : Nat) : String := String.mk (nat_to_base64 n)

/-- `from_digits.index(digit)` for base-64 digits. -/
def base64_char_index (c : Char) : Nat := BASE64_ALPHABET.indexOf c

/-- The accumulation loop of `BaseConverter.convert` from base 64:
`x = x * 64 + index(digit)` over the digits. -/
def base64_value (digits : List Char) : Nat :=
  digits.foldl (fun acc c => acc * 64 + base64_char_index c) 0

/-- The unsigned part of `BaseConverter.convert` from base 64: fold the
digits (`from_digits.index` raises `ValueError` for a character outside
the alphabet), render in decimal and apply `int` (`int('')` raises
`ValueError` when the value is 0, i.e. when the decimal rendering is the
empty string). `none` embeds a raised exception. -/
def base64_decode_digits (ds : List Char) : Option Nat :=
  if ds.all (fun d => BASE64_ALPHABET.contains d) then
    if base64_value ds = 0 then none
    else some (base64_value ds)
  else none

/-- `baseconv.base64.decode` on the character list: `str(number)[0]`
raises `IndexError` on the empty string (`none`); a leading `'$'` sign is
stripped and the decoded value negated. -/
def base64_decode_list : List Char → Option Int
  | [] => none
  | c :: cs =>
      if c = '$' then (base64_decode_digits cs).map (fun x : Nat => -(x : Int))
      else (base64_decode_digits (c :: cs)).map (fun x : Nat => (x : Int))

/-- `baseconv.base64.decode`. -/
def base64_decode (s : String) : Option Int := base64_decode_list s.data

/-! ## `ShortLinkView.get` -/

/-- The responses `ShortLinkView.get` can produce; `serverError` stands for
an exception escaping the handler (a 500, neither a client-error rejection
nor a redirect). -/
inductive HttpResponse where
  | badRequest (message : String)
  | redirect (location : String)
  | serverError
  deriving DecidableEq, Repr

/-- Whether a response is the 400 rejection. -/
def HttpResponse.isClientError : HttpResponse → Bool
  | .badRequest _ => true
  | _ => false

/-- `ShortLinkView.get`: reject when `set(encoded_id)` is not a subset of
the alphabet, else decode and redirect to `/recipes/{recipe_id}/`. -/
def short_link_get (encoded_id : String) : HttpResponse :=
  if ¬ encoded_id.data.all (fun c => BASE64_ALPHABET.contains c) then
    .badRequest "Недопустимые символы в короткой ссылке."
  else
    match base64_decode encoded_id with
    | some recipe_id => .redirect ("/recipes/" ++ toString recipe_id ++ "/")
    | none => .serverError

/-! ## Shopping-list download (`RecipeViewSet.download_shopping_cart`)

The queryset is
`RecipeIngredient.objects.filter(recipe__shopping_cart__user=user)
.values('ingredient__name', 'ingredient__measurement_unit')
.annotate(amount=Sum('amount'))`: group the user's cart rows by the joined
`(ingredient name, measurement unit)` columns and sum `amount` per group.
A `RecipeIngredient` row is embedded here together with its joined
`Ingredient` columns. Note the filter keyword `shopping_cart`: the
reverse name declared on `ShoppingCart.recipe` in `recipes/models.py` is
`related_name='shopping_carts'`, so resolving the keyword raises a
`FieldError`; the resolvable reverse names on `Recipe` are listed below
and the raised error is embedded as `Except.error`. -/

/-- A `RecipeIngredient` row joined with its `Ingredient`'s columns. -/
structure CartItemRow where
  recipe : Nat
  ingredient_name : String
  measurement_unit : String
  amount : Nat
  deriving DecidableEq, Repr

/-- Reverse query names available on `Recipe`, from the `related_name`
declarations of `recipes/models.py` (`RecipeIngredient.recipe`,
`RecipeTag.recipe`, `Favorite.recipe`, `ShoppingCart.recipe`). -/
def recipe_reverse_relations : List String :=
  ["recipe_ingredient", "recipe_tag", "favorites", "shopping_carts"]

/-- The reverse name the view's filter uses:
`recipe__shopping_cart__user`. -/
def shopping_cart_lookup : String := "shopping_cart"

/-- The rows `filter(recipe__shopping_carts__user=user)` would select:
cart membership is unique per `(user, recipe)`, so the join keeps each row
at most once. -/
def cart_rows (user : Nat) (cart : RelationTable)
    (rows : List CartItemRow) : List CartItemRow :=
  rows.filter (fun row => cart.contains (user, row.recipe))

/-- The distinct `(ingredient name, measurement unit)` group keys of
`.values(...)`. -/
def grouped_keys (rows : List CartItemRow) : List (String × String) :=
  (rows.map (fun row => (row.ingredient_name, row.measurement_unit))).dedup

/-- `Sum('amount')` within one group. -/
def grouped_amount (rows : List CartItemRow) (key : String × String) : Nat :=
  ((rows.filter (fun row =>
    (row.ingredient_name, row.measurement_unit) == key)).map
      CartItemRow.amount).sum

/-- One shopping-list line:
`f"{item['ingredient__name']} - {item['amount']} {item['ingredient__measurement_unit']}\n"`. -/
def shopping_list_line (key : String × String) (total : Nat) : String :=
  key.1 ++ " - " ++ toString total ++ " " ++ key.2 ++ "\n"

/-- The plain-text document: header line, then one line per group. -/
def shopping_list_content (user : Nat) (cart : RelationTable)
    (rows : List CartItemRow) : String :=
  "Список покупок:\n" ++
    String.join ((grouped_keys (cart_rows user cart rows)).map
      (fun key =>
        shopping_list_line key (grouped_amount (cart_rows user cart rows) key)))

/-- `RecipeViewSet.download_shopping_cart`: building the queryset resolves
the filter keyword against `Recipe`'s reverse names; an unresolvable
keyword raises `FieldError` (embedded as `Except.error`), otherwise the
aggregated document is returned. -/
def download_shopping_cart (user : Nat) (cart : RelationTable)
    (rows : List CartItemRow) : Except String String :=
  if recipe_reverse_relations.contains shopping_cart_lookup then
    .ok (shopping_list_content user cart rows)
  else
    .error "FieldError: cannot resolve keyword shopping_cart into field"

/-! ## Bulk import command (`import_data_into_db.py`)

`Command.handle` opens the file, parses JSON, bulk-creates one
`Ingredient` per entry and logs a success message; `except` clauses catch
`FileNotFoundError`, `json.JSONDecodeError` and `Exception` (everything
else, e.g. entries without the expected keys), each logging a message. An
error escaping the command would be an `Except.error` result. -/

/-- What opening and parsing the input file can yield. -/
inductive ImportFile where
  | missing
  | malformed
  | badShape
  | parsed (entries : List (String × String))

/-- The exception classes the `try` body can raise. -/
inductive ImportError where
  | fileNotFound
  | jsonDecode
  | other
  deriving DecidableEq, Repr

/-- An `Ingredient` model row as created by the command. -/
structure Ingredient where
  name : String
  measurement_unit : String
  deriving DecidableEq, Repr

/-- What a command run produces: log lines and created rows. -/
structure ImportOutcome where
  logs : List String
  created : List Ingredient
  deriving DecidableEq, Repr

/-- The `try` body of `Command.handle`: `open` raises `FileNotFoundError`
for a missing file, `json.load` raises `JSONDecodeError` for malformed
JSON, `item['name']` access raises for entries of the wrong shape, and
otherwise one `Ingredient` per entry is built and bulk-created. -/
def import_try_body :
    ImportFile → Except ImportError (List Ingredient × String)
  | .missing => .error .fileNotFound
  | .malformed => .error .jsonDecode
  | .badShape => .error .other
  | .parsed entries =>
      .ok (entries.map (fun item => ⟨item.1, item.2⟩),
        "Данные для модели Ingredient успешно импортированы")

/-- Which exceptions the `except` clauses catch: `FileNotFoundError`,
`json.JSONDecodeError`, and the final bare `Exception` clause. -/
def import_error_caught : ImportError → Bool
  | .fileNotFound => true
  | .jsonDecode => true
  | .other => true

/-- The message each `except` clause writes. -/
def import_error_log : ImportError → String
  | .fileNotFound => "Файл с указанным названием не найден."
  | .jsonDecode => "Ошибка чтения JSON файла."
  | .other => "Произошла ошибка."

/-- `Command.handle`: the `try` body wrapped in its `except` clauses; a
caught exception is logged and the command terminates normally, an
uncaught one would propagate as `Except.error`. -/
def import_handle (file : ImportFile) : Except ImportError ImportOutcome :=
  match import_try_body file with
  | .ok (ingredients, message) => .ok ⟨[message], ingredients⟩
  | .error e =>
      if import_error_caught e then
        .ok ⟨[import_error_log e], []⟩
      else
        .error e

/-! ### Helper lemmas about the duplicate check -/

/-- `len(set(l)) != len(l)` is exactly the negation of `Nodup`. -/
lemma dedup_length_eq_iff_nodup {α : Type} [DecidableEq α] (l : List α) :
    l.dedup.length = l.length ↔ l.Nodup := by
  constructor
  · intro h
    have hsub : l.dedup.Sublist l := l.dedup_sublist
    have := hsub.eq_of_length h
    rw [← this]
    exact l.nodup_dedup
  · intro h
    rw [List.dedup_eq_self.mpr h]

lemma validate_ingredients_isOk (ingredients : List IngredientEntry) :
    (validate_ingredients ingredients).isOk = true ↔
      (ingredients ≠ [] ∧ (ingredients.map Prod.fst).Nodup ∧
        ∀ e ∈ ingredients, 0 < e.2) := by
  unfold validate_ingredients
  by_cases hnil : ingredients = []
  · simp [hnil, Except.isOk, Except.toBool]
  · simp only [if_neg hnil]
    by_cases hdup : (ingredients.map Prod.fst).dedup.length =
        (ingredients.map Prod.fst).length
    · rw [if_neg (by simp [hdup])]
      rcases hfind : ingredients.find? (fun e => e.2 ≤ 0) with _ | e
      · simp only [hfind]
        rw [List.find?_eq_none] at hfind
        constructor
        · intro _
          refine ⟨hnil, (dedup_length_eq_iff_nodup _).mp hdup, ?_⟩
          intro e he
          have := hfind e he
          simpa using this
        · intro _; rfl
      · simp only [hfind]
        have hmem := List.find?_some hfind
        have hin := List.mem_of_find?_eq_some hfind
        constructor
        · intro h; simp [Except.isOk, Except.toBool] at h
        · rintro ⟨-, -, hpos⟩
          have := hpos e hin
          simp only [decide_eq_true_eq] at hmem
          omega
    · rw [if_pos (by simpa using hdup)]
      constructor
      · intro h; simp [Except.isOk, Except.toBool] at h
      · rintro ⟨-, hnodup, -⟩
        exact absurd ((dedup_length_eq_iff_nodup _).mpr hnodup) hdup

lemma validate_tags_isOk (tags : List Nat) :
    (validate_tags tags).isOk = true ↔ (tags ≠ [] ∧ tags.Nodup) := by
  unfold validate_tags
  by_cases hnil : tags = []
  · simp [hnil, Except.isOk, Except.toBool]
  · simp only [if_neg hnil]
    by_cases hdup : tags.dedup.length = tags.length
    · rw [if_neg (by simp [hdup])]
      simp [Except.isOk, Except.toBool, hnil, (dedup_length_eq_iff_nodup _).mp hdup]
    · rw [if_pos (by simp [hdup])]
      constructor
      · intro h; simp [Except.isOk, Except.toBool] at h
      · rintro ⟨-, hnodup⟩
        exact absurd ((dedup_length_eq_iff_nodup _).mpr hnodup) hdup

lemma validate_ingredients_ok_val (ingredients : List IngredientEntry)
    (h : (validate_ingredients ingredients).isOk = true) :
    validate_ingredients ingredients = .ok ingredients := by
  unfold validate_ingredients at h ⊢
  by_cases hnil : ingredients = []
  · simp [hnil, Except.isOk, Except.toBool] at h
  · simp only [if_neg hnil] at h ⊢
    by_cases hdup : (ingredients.map Prod.fst).dedup.length =
        (ingredients.map Prod.fst).length
    · rw [if_neg (by simp [hdup])] at h ⊢
      rcases hfind : ingredients.find? (fun e => e.2 ≤ 0) with _ | e
      · simp [hfind]
      · simp [hfind, Except.isOk, Except.toBool] at h
    · rw [if_pos (by simpa using hdup)] at h
      simp [Except.isOk, Except.toBool] at h

lemma validate_tags_ok_val (tags : List Nat)
    (h : (validate_tags tags).isOk = true) :
    validate_tags tags = .ok tags := by
  unfold validate_tags at h ⊢
  by_cases hnil : tags = []
  · simp [hnil, Except.isOk, Except.toBool] at h
  · simp only [if_neg hnil] at h ⊢
    by_cases hdup : tags.dedup.length = tags.length
    · rw [if_neg (by simp [hdup])] at h ⊢
    · rw [if_pos (by simp [hdup])] at h
      simp [Except.isOk, Except.toBool] at h

/-! ### `Except` bookkeeping -/

lemma except_isOk_false_iff {ε α : Type} (e : Except ε α) :
    e.isOk = false ↔ ¬ e.isOk = true := by
  cases e <;> simp [Except.isOk, Except.toBool]

lemma validate_recipe_isOk (attrs : RecipeAttrs) :
    (validate_recipe attrs).isOk =
      ((validate_ingredients (attrs.ingredients.getD [])).isOk &&
        (validate_tags (attrs.tags.getD [])).isOk) := by
  unfold validate_recipe
  rcases h1 : validate_ingredients (attrs.ingredients.getD []) with e | v
  · simp [h1, Except.isOk, Except.toBool, Bind.bind, Except.bind]
  · rcases h2 : validate_tags (attrs.tags.getD []) with e | w
    all_goals
      simp [h1, h2, Except.isOk, Except.toBool, Bind.bind, Except.bind,
        pure, Except.pure]

/-! ### Relation-toggle lemmas -/

lemma favorite_add_isOk (user recipe : Nat) (favorites : RelationTable) :
    (favorite_add user recipe favorites).isOk = true ↔
      (user, recipe) ∉ favorites := by
  unfold favorite_add
  by_cases h : (user, recipe) ∈ favorites <;>
    simp [h, Except.isOk, Except.toBool]

lemma shopping_cart_add_isOk (user recipe : Nat) (cart : RelationTable) :
    (shopping_cart_add user recipe cart).isOk = true ↔
      (user, recipe) ∉ cart := by
  unfold shopping_cart_add
  by_cases h : (user, recipe) ∈ cart <;>
    simp [h, Except.isOk, Except.toBool]

lemma follow_add_isOk (user author : Nat) (follows : RelationTable) :
    (follow_add user author follows).isOk = true ↔
      (user ≠ author ∧ (user, author) ∉ follows) := by
  unfold follow_add
  by_cases hself : user = author
  · simp [hself, Except.isOk, Except.toBool]
  · by_cases h : (user, author) ∈ follows <;>
      simp [hself, h, Except.isOk, Except.toBool]

lemma mem_filter_ne_self {α : Type} [DecidableEq α] (l : List α) (a : α) :
    a ∉ l.filter (fun x => x ≠ a) := by
  intro h
  have := (List.mem_filter.mp h).2
  simp at this

/-! ### Base-64 converter lemmas -/

lemma base64_char_index_digit {i : Nat} (hi : i < 64) :
    base64_char_index (base64_digit i) = i := by
  have h : ∀ j : Fin 64, base64_char_index (base64_digit j.val) = j.val := by
    decide
  exact h ⟨i, hi⟩

lemma base64_digit_mem {i : Nat} (hi : i < 64) :
    BASE64_ALPHABET.contains (base64_digit i) = true := by
  have h : ∀ j : Fin 64,
      BASE64_ALPHABET.contains (base64_digit j.val) = true := by decide
  exact h ⟨i, hi⟩

lemma nat_to_base64_zero : nat_to_base64 0 = [] := by
  unfold nat_to_base64
  simp

lemma nat_to_base64_pos {x : Nat} (h : x ≠ 0) :
    nat_to_base64 x = nat_to_base64 (x / 64) ++ [base64_digit (x % 64)] := by
  conv_lhs => unfold nat_to_base64
  simp [h]

lemma mem_nat_to_base64 (x : Nat) :
    ∀ c ∈ nat_to_base64 x, BASE64_ALPHABET.contains c = true := by
  induction x using Nat.strong_induction_on with
  | _ x ih =>
    by_cases h : x = 0
    · subst h
      rw [nat_to_base64_zero]
      intro c hc
      simp at hc
    · rw [nat_to_base64_pos h]
      intro c hc
      rcases List.mem_append.mp hc with h1 | h2
      · exact ih (x / 64)
          (Nat.div_lt_self (Nat.pos_of_ne_zero h) (by norm_num)) c h1
      · rw [List.mem_singleton.mp h2]
        exact base64_digit_mem (Nat.mod_lt _ (by norm_num))

lemma base64_value_foldl (l : List Char) :
    ∀ acc : Nat,
      l.foldl (fun a c => a * 64 + base64_char_index c) acc
        = acc * 64 ^ l.length + base64_value l := by
  induction l with
  | nil => intro acc; simp [base64_value]
  | cons c t ih =>
    intro acc
    have hval : base64_value (c :: t)
        = base64_char_index c * 64 ^ t.length + base64_value t := by
      change List.foldl _ (0 * 64 + base64_char_index c) t = _
      rw [ih]
      ring
    rw [List.foldl_cons, ih (acc * 64 + base64_char_index c), hval,
      List.length_cons]
    ring

lemma base64_value_append_digit (l : List Char) (c : Char) :
    base64_value (l ++ [c]) = base64_value l * 64 + base64_char_index c := by
  unfold base64_value
  rw [List.foldl_append]
  simp

lemma base64_value_encode (x : Nat) :
    base64_value (nat_to_base64 x) = x := by
  induction x using Nat.strong_induction_on with
  | _ x ih =>
    by_cases h : x = 0
    · subst h
      rw [nat_to_base64_zero]
      rfl
    · rw [nat_to_base64_pos h, base64_value_append_digit,
        ih (x / 64) (Nat.div_lt_self (Nat.pos_of_ne_zero h) (by norm_num)),
        base64_char_index_digit (Nat.mod_lt _ (by norm_num))]
      omega

lemma nat_to_base64_ne_nil {x : Nat} (h : x ≠ 0) : nat_to_base64 x ≠ [] := by
  rw [nat_to_base64_pos h]
  simp

lemma dollar_not_mem_alphabet : BASE64_ALPHABET.contains '$' = false := by
  decide

lemma base64_value_cons (c : Char) (t : List Char) :
    base64_value (c :: t)
      = base64_char_index c * 64 ^ t.length + base64_value t := by
  change List.foldl _ (0 * 64 + base64_char_index c) t = _
  rw [base64_value_foldl]
  ring

lemma base64_char_index_eq_zero {c : Char} :
    base64_char_index c = 0 ↔ c = '0' := by
  constructor
  · intro h
    by_contra hne
    have hsplit : BASE64_ALPHABET = '0' :: BASE64_ALPHABET.tail := by decide
    rw [base64_char_index, hsplit,
      List.indexOf_cons_ne _ (fun hh => hne hh.symm)] at h
    exact Nat.succ_ne_zero _ h
  · intro h
    subst h
    decide

lemma base64_value_eq_zero (l : List Char) :
    base64_value l = 0 ↔ ∀ c ∈ l, c = '0' := by
  induction l with
  | nil => simp [base64_value]
  | cons c t ih =>
    rw [base64_value_cons]
    constructor
    · intro h
      have hpow : 0 < 64 ^ t.length := Nat.pos_pow_of_pos _ (by norm_num)
      have hparts : base64_char_index c * 64 ^ t.length = 0 ∧
          base64_value t = 0 := by omega
      have hidx : base64_char_index c = 0 := by
        rcases Nat.mul_eq_zero.mp hparts.1 with h0 | h0
        · exact h0
        · omega
      intro d hd
      rcases List.mem_cons.mp hd with rfl | hdt
      · exact base64_char_index_eq_zero.mp hidx
      · exact (ih.mp hparts.2) d hdt
    · intro h
      have hc : base64_char_index c = 0 :=
        base64_char_index_eq_zero.mpr (h c (List.mem_cons_self c t))
      have ht : base64_value t = 0 :=
        ih.mpr (fun d hd => h d (List.mem_cons_of_mem c hd))
      rw [hc, ht]
      ring

lemma base64_decode_digits_pos {ds : List Char}
    (hall : ∀ d ∈ ds, BASE64_ALPHABET.contains d = true)
    (hval : base64_value ds ≠ 0) :
    base64_decode_digits ds = some (base64_value ds) := by
  unfold base64_decode_digits
  rw [if_pos (List.all_eq_true.mpr hall), if_neg hval]

lemma base64_decode_digits_none {ds : List Char}
    (hall : ds.all (fun d => BASE64_ALPHABET.contains d) = true) :
    base64_decode_digits ds = none ↔ ∀ c ∈ ds, c = '0' := by
  unfold base64_decode_digits
  rw [if_pos hall, ← base64_value_eq_zero]
  by_cases h : base64_value ds = 0 <;> simp [h]

lemma head_encoded_ne_dollar {c : Char}
    (hc : BASE64_ALPHABET.contains c = true) : c ≠ '$' := by
  intro h
  rw [h, dollar_not_mem_alphabet] at hc
  exact Bool.noConfusion hc

lemma base64_decode_encode_ne_zero {n : Nat} (h : n ≠ 0) :
    base64_decode (base64_encode n) = some (n : Int) := by
  obtain ⟨c, cs, hl⟩ := List.exists_cons_of_ne_nil (nat_to_base64_ne_nil h)
  have hmem : ∀ d ∈ c :: cs, BASE64_ALPHABET.contains d = true := by
    rw [← hl]
    exact mem_nat_to_base64 n
  have hval : base64_value (c :: cs) = n := by
    rw [← hl]
    exact base64_value_encode n
  have hc : c ≠ '$' := head_encoded_ne_dollar (hmem c (List.mem_cons_self c cs))
  show base64_decode_list (String.mk (nat_to_base64 n)).data = some (n : Int)
  rw [show (String.mk (nat_to_base64 n)).data = nat_to_base64 n from rfl, hl]
  simp only [base64_decode_list]
  rw [if_neg hc, base64_decode_digits_pos hmem (by rw [hval]; exact h), hval]
  rfl

/-! ### `ShortLinkView` lemmas -/

lemma short_link_get_redirect {token : String} {i : Int}
    (hall : token.data.all (fun c => BASE64_ALPHABET.contains c) = true)
    (hdec : base64_decode token = some i) :
    short_link_get token = .redirect ("/recipes/" ++ toString i ++ "/") := by
  unfold short_link_get
  rw [if_neg (fun hh => hh hall), hdec]

lemma short_link_get_serverError {token : String}
    (hall : token.data.all (fun c => BASE64_ALPHABET.contains c) = true)
    (hdec : base64_decode token = none) :
    short_link_get token = .serverError := by
  unfold short_link_get
  rw [if_neg (fun hh => hh hall), hdec]

lemma base64_decode_none_iff {token : String}
    (hall : token.data.all (fun c => BASE64_ALPHABET.contains c) = true) :
    base64_decode token = none ↔ ∀ c ∈ token.data, c = '0' := by
  show base64_decode_list token.data = none ↔ _
  cases htd : token.data with
  | nil => simp [base64_decode_list]
  | cons c cs =>
    rw [htd] at hall
    have hc : c ≠ '$' :=
      head_encoded_ne_dollar
        (List.all_eq_true.mp hall c (List.mem_cons_self c cs))
    simp only [base64_decode_list]
    rw [if_neg hc, Option.map_eq_none', base64_decode_digits_none hall]

lemma short_link_get_clientError (token : String) :
    (short_link_get token).isClientError = true ↔
      ¬ token.data.all (fun c => BASE64_ALPHABET.contains c) = true := by
  by_cases h : token.data.all (fun c => BASE64_ALPHABET.contains c) = true
  · rcases hdec : base64_decode token with _ | i
    · rw [short_link_get_serverError h hdec]
      exact iff_of_false (by simp [HttpResponse.isClientError])
        (not_not_intro h)
    · rw [short_link_get_redirect h hdec]
      exact iff_of_false (by simp [HttpResponse.isClientError])
        (not_not_intro h)
  · unfold short_link_get
    rw [if_pos h]
    exact iff_of_true rfl h

/-! ### Follow-invariant lemmas -/

lemma follow_add_self {u a : Nat} (h : u = a) (follows : RelationTable) :
    follow_add u a follows = .error "Вы не можете подписаться на себя." := by
  unfold follow_add
  rw [if_pos h]

lemma follow_add_dup {u a : Nat} {follows : RelationTable} (h : u ≠ a)
    (hmem : (u, a) ∈ follows) :
    follow_add u a follows
      = .error "Вы уже подписаны на этого пользователя." := by
  unfold follow_add
  rw [if_neg h, if_pos hmem]

lemma follow_add_ok {u a : Nat} {follows : RelationTable} (h : u ≠ a)
    (hmem : (u, a) ∉ follows) :
    follow_add u a follows = .ok ((u, a) :: follows) := by
  unfold follow_add
  rw [if_neg h, if_neg hmem]

lemma follow_remove_mem {u a : Nat} {follows : RelationTable}
    (hmem : (u, a) ∈ follows) :
    follow_remove u a follows
      = .ok (follows.filter (fun row => row ≠ (u, a))) := by
  unfold follow_remove
  rw [if_pos hmem]

lemma follow_remove_not_mem {u a : Nat} {follows : RelationTable}
    (hmem : (u, a) ∉ follows) :
    follow_remove u a follows = .error "Подписка не найдена" := by
  unfold follow_remove
  rw [if_neg hmem]

lemma favorite_add_mem {u t : Nat} {table : RelationTable}
    (h : (u, t) ∈ table) :
    favorite_add u t table = .error "Рецепт уже есть в избранном" := by
  unfold favorite_add
  rw [if_pos h]

lemma favorite_add_not_mem {u t : Nat} {table : RelationTable}
    (h : (u, t) ∉ table) :
    favorite_add u t table = .ok ((u, t) :: table) := by
  unfold favorite_add
  rw [if_neg h]

lemma shopping_cart_add_mem {u t : Nat} {table : RelationTable}
    (h : (u, t) ∈ table) :
    shopping_cart_add u t table = .error "Рецепт уже есть в корзине" := by
  unfold shopping_cart_add
  rw [if_pos h]

lemma shopping_cart_add_not_mem {u t : Nat} {table : RelationTable}
    (h : (u, t) ∉ table) :
    shopping_cart_add u t table = .ok ((u, t) :: table) := by
  unfold shopping_cart_add
  rw [if_neg h]

lemma favorite_remove_mem {u t : Nat} {table : RelationTable}
    (h : (u, t) ∈ table) :
    favorite_remove u t table
      = .ok (table.filter (fun row => row ≠ (u, t))) := by
  unfold favorite_remove
  rw [if_pos h]

lemma favorite_remove_not_mem {u t : Nat} {table : RelationTable}
    (h : (u, t) ∉ table) :
    favorite_remove u t table = .error "Рецепт не найден в избранном" := by
  unfold favorite_remove
  rw [if_neg h]

lemma shopping_cart_remove_mem {u t : Nat} {table : RelationTable}
    (h : (u, t) ∈ table) :
    shopping_cart_remove u t table
      = .ok (table.filter (fun row => row ≠ (u, t))) := by
  unfold shopping_cart_remove
  rw [if_pos h]

lemma shopping_cart_remove_not_mem {u t : Nat} {table : RelationTable}
    (h : (u, t) ∉ table) :
    shopping_cart_remove u t table = .error "Рецепт не найден в корзине" := by
  unfold shopping_cart_remove
  rw [if_neg h]

lemma favorite_add_twice (u t : Nat) (table : RelationTable) :
    ((favorite_add u t table).bind (favorite_add u t)).isOk = false := by
  by_cases h : (u, t) ∈ table
  · rw [favorite_add_mem h]
    rfl
  · rw [favorite_add_not_mem h]
    show (favorite_add u t ((u, t) :: table)).isOk = false
    rw [favorite_add_mem (List.mem_cons_self _ _)]
    rfl

lemma shopping_cart_add_twice (u t : Nat) (table : RelationTable) :
    ((shopping_cart_add u t table).bind (shopping_cart_add u t)).isOk
      = false := by
  by_cases h : (u, t) ∈ table
  · rw [shopping_cart_add_mem h]
    rfl
  · rw [shopping_cart_add_not_mem h]
    show (shopping_cart_add u t ((u, t) :: table)).isOk = false
    rw [shopping_cart_add_mem (List.mem_cons_self _ _)]
    rfl

lemma follow_add_twice (u t : Nat) (table : RelationTable) :
    ((follow_add u t table).bind (follow_add u t)).isOk = false := by
  by_cases hself : u = t
  · rw [follow_add_self hself]
    rfl
  · by_cases h : (u, t) ∈ table
    · rw [follow_add_dup hself h]
      rfl
    · rw [follow_add_ok hself h]
      show (follow_add u t ((u, t) :: table)).isOk = false
      rw [follow_add_dup hself (List.mem_cons_self _ _)]
      rfl

lemma apply_follow_op_no_self {follows : RelationTable}
    (hinv : ∀ p ∈ follows, p.1 ≠ p.2) (op : FollowOp) :
    ∀ p ∈ apply_follow_op follows op, p.1 ≠ p.2 := by
  cases op with
  | add u a =>
    simp only [apply_follow_op]
    by_cases hself : u = a
    · rw [follow_add_self hself]
      exact hinv
    · by_cases hmem : (u, a) ∈ follows
      · rw [follow_add_dup hself hmem]
        exact hinv
      · rw [follow_add_ok hself hmem]
        intro p hp
        rcases List.mem_cons.mp hp with rfl | hpf
        · exact hself
        · exact hinv p hpf
  | remove u a =>
    simp only [apply_follow_op]
    by_cases hmem : (u, a) ∈ follows
    · rw [follow_remove_mem hmem]
      intro p hp
      exact hinv p (List.mem_of_mem_filter hp)
    · rw [follow_remove_not_mem hmem]
      exact hinv

lemma apply_follow_ops_no_self (ops : List FollowOp) :
    ∀ p ∈ apply_follow_ops ops, p.1 ≠ p.2 := by
  suffices h : ∀ (ops : List FollowOp) (start : RelationTable),
      (∀ p ∈ start, p.1 ≠ p.2) →
        ∀ p ∈ ops.foldl apply_follow_op start, p.1 ≠ p.2 by
    exact h ops [] (by simp)
  intro ops
  induction ops with
  | nil =>
    intro start hs
    simpa using hs
  | cons op rest ih =>
    intro start hs
    exact ih _ (apply_follow_op_no_self hs op)

/-! ### `update` lemmas -/

lemma update_kept_rows (recipe : Nat) (payload : List IngredientEntry)
    (rows : List RecipeIngredientRow) :
    ((update_recipe_ingredients recipe payload rows).filter
        (fun row => row.recipe = recipe)).map
          (fun row => (row.ingredient, row.amount)) = payload := by
  unfold update_recipe_ingredients add_ingredients
  rw [List.filter_append]
  have h1 : (rows.filter (fun row => row.recipe ≠ recipe)).filter
      (fun row => row.recipe = recipe) = [] := by
    rw [List.filter_filter]
    apply List.filter_eq_nil_iff.mpr
    intro row _
    by_cases h : row.recipe = recipe <;> simp [h]
  have h2 : (payload.map (fun entry =>
      ({ recipe := recipe, ingredient := entry.1, amount := entry.2 } :
        RecipeIngredientRow))).filter (fun row => row.recipe = recipe)
      = payload.map (fun entry =>
        ({ recipe := recipe, ingredient := entry.1, amount := entry.2 } :
          RecipeIngredientRow)) := by
    apply List.filter_eq_self.mpr
    intro row hrow
    rcases List.mem_map.mp hrow with ⟨entry, -, rfl⟩
    simp
  rw [h1, h2, List.nil_append, List.map_map]
  exact List.map_id payload

lemma update_other_rows (recipe : Nat) (payload : List IngredientEntry)
    (rows : List RecipeIngredientRow) :
    (update_recipe_ingredients recipe payload rows).filter
        (fun row => row.recipe ≠ recipe)
      = rows.filter (fun row => row.recipe ≠ recipe) := by
  unfold update_recipe_ingredients add_ingredients
  rw [List.filter_append]
  have h1 : (rows.filter (fun row => row.recipe ≠ recipe)).filter
      (fun row => row.recipe ≠ recipe)
      = rows.filter (fun row => row.recipe ≠ recipe) := by
    rw [List.filter_filter]
    apply List.filter_congr
    intro row _
    by_cases h : row.recipe = recipe <;> simp [h]
  have h2 : (payload.map (fun entry =>
      ({ recipe := recipe, ingredient := entry.1, amount := entry.2 } :
        RecipeIngredientRow))).filter (fun row => row.recipe ≠ recipe)
      = [] := by
    apply List.filter_eq_nil_iff.mpr
    intro row hrow
    rcases List.mem_map.mp hrow with ⟨entry, -, rfl⟩
    simp
  rw [h1, h2, List.append_nil]

/-! ### Shopping-list lemmas -/

lemma cart_rows_empty (user : Nat) (rows : List CartItemRow) :
    cart_rows user [] rows = [] := by
  unfold cart_rows
  apply List.filter_eq_nil_iff.mpr
  intro row _
  simp [List.contains]

lemma shopping_list_content_empty_cart (user : Nat)
    (rows : List CartItemRow) :
    shopping_list_content user [] rows = "Список покупок:\n" := by
  unfold shopping_list_content
  rw [cart_rows_empty]
  rfl

/-! ## Claim theorems -/

/-- C1 (code bug in the source): the shopping-list query as written raises
a `FieldError` for every request, because the filter keyword
`recipe__shopping_cart__user` does not match the reverse name
`shopping_carts` declared on `ShoppingCart.recipe`. The aggregation the
view intends — and, with the corrected keyword, would perform — groups the
user's cart rows by `(ingredient name, measurement unit)` with one group
per distinct key, sums amounts per group (e.g. `"Salt", "g"` amounts 5 and
10 give the single line `Salt - 15 g`), and yields only the header line
for an empty cart. -/
theorem download_shopping_cart_spec :
    (∀ (user : Nat) (cart : RelationTable) (rows : List CartItemRow),
        download_shopping_cart user cart rows
          = .error "FieldError: cannot resolve keyword shopping_cart into field")
    ∧ (∀ (user : Nat) (cart : RelationTable) (rows : List CartItemRow),
        (grouped_keys (cart_rows user cart rows)).Nodup
        ∧ ∀ key : String × String,
            key ∈ grouped_keys (cart_rows user cart rows) ↔
              key ∈ (cart_rows user cart rows).map
                (fun row => (row.ingredient_name, row.measurement_unit)))
    ∧ shopping_list_content 1 [(1, 10), (1, 20)]
        [⟨10, "Salt", "g", 5⟩, ⟨20, "Salt", "g", 10⟩]
        = "Список покупок:\nSalt - 15 g\n"
    ∧ (∀ (user : Nat) (rows : List CartItemRow),
        shopping_list_content user [] rows = "Список покупок:\n") := by
  refine ⟨?_, ?_, ?_, ?_⟩
  · intro user cart rows
    unfold download_shopping_cart
    rw [if_neg (by decide)]
  · intro user cart rows
    exact ⟨List.nodup_dedup _, fun key => List.mem_dedup⟩
  · decide
  · intro user rows
    exact shopping_list_content_empty_cart user rows

/-- C2: a recipe payload (both list fields present) is rejected exactly
when the ingredient list is empty, an ingredient id repeats, some amount
is ≤ 0, the tag list is empty, or a tag id repeats; otherwise the
payload passes validation. -/
theorem recipe_validation_rejects_iff :
    ∀ (ingredients : List IngredientEntry) (tags : List Nat),
      (validate_recipe ⟨some ingredients, some tags⟩).isOk = false ↔
        (ingredients = [] ∨ ¬ (ingredients.map Prod.fst).Nodup
          ∨ (∃ e ∈ ingredients, e.2 ≤ 0)
          ∨ tags = [] ∨ ¬ tags.Nodup) := by
  intro ingredients tags
  rw [except_isOk_false_iff, validate_recipe_isOk]
  show ¬ ((validate_ingredients ingredients).isOk
      && (validate_tags tags).isOk) = true ↔ _
  rw [Bool.and_eq_true, validate_ingredients_isOk, validate_tags_isOk]
  constructor
  · intro h
    by_contra hc
    push_neg at hc
    obtain ⟨h1, h2, h3, h4, h5⟩ := hc
    exact h ⟨⟨h1, h2, h3⟩, h4, h5⟩
  · rintro (h | h | h | h | h) ⟨⟨h1, h2, h3⟩, h4, h5⟩
    · exact h1 h
    · exact h h2
    · obtain ⟨e, he, hle⟩ := h
      exact absurd (h3 e he) (by omega)
    · exact h4 h
    · exact h h5

/-- C3 counterexample: at `n = 0` the round-trip fails — the encoder's
digit loop never runs, `encode(0)` is the empty string, and decoding the
empty string raises (`none`) instead of returning 0. -/
theorem base64_roundtrip_zero_counterexample :
    base64_encode 0 = "" ∧ base64_decode (base64_encode 0) = none := by
  have h0 : base64_encode 0 = "" := by
    unfold base64_encode
    rw [nat_to_base64_zero]
  refine ⟨h0, ?_⟩
  rw [h0]
  rfl

/-- C3 (amended): encode/decode are mutual inverses on the positive
integers — for every `n > 0`, decoding the token produced by encoding `n`
yields `n` again (`n = 0` fails, see the counterexample). -/
theorem base64_roundtrip_positive :
    ∀ n : Nat, 0 < n → base64_decode (base64_encode n) = some (n : Int) :=
  fun _ hn => base64_decode_encode_ne_zero (by omega)

/-- C3 witness: the round-trip at the concrete id 123. -/
theorem base64_roundtrip_positive_witness :
    base64_decode (base64_encode 123) = some (123 : Int) :=
  base64_roundtrip_positive 123 (by norm_num)

/-- C4 counterexample: a self-follow add request fails even though the
`(user, target)` pair does not exist, refuting "when the pair does not
exist the add succeeds" for the follow relation. -/
theorem follow_add_counterexample :
    (1, 1) ∉ ([] : RelationTable) ∧ (follow_add 1 1 []).isOk = false := by
  exact ⟨by decide, rfl⟩

/-- C4 (amended): an add request for favorite, shopping-cart or follow
fails when the `(user, target)` pair already exists, and otherwise
succeeds — except a follow request with follower = followed, which is
rejected even without an existing pair; in every case adding the same
pair twice leaves the second add rejected. -/
theorem relation_add_spec :
    ∀ (user target : Nat) (table : RelationTable),
      ((favorite_add user target table).isOk = true ↔
        (user, target) ∉ table)
      ∧ ((shopping_cart_add user target table).isOk = true ↔
          (user, target) ∉ table)
      ∧ ((follow_add user target table).isOk = true ↔
          user ≠ target ∧ (user, target) ∉ table)
      ∧ ((favorite_add user target table).bind
          (favorite_add user target)).isOk = false
      ∧ ((shopping_cart_add user target table).bind
          (shopping_cart_add user target)).isOk = false
      ∧ ((follow_add user target table).bind
          (follow_add user target)).isOk = false :=
  fun user target table =>
    ⟨favorite_add_isOk user target table,
      shopping_cart_add_isOk user target table,
      follow_add_isOk user target table,
      favorite_add_twice user target table,
      shopping_cart_add_twice user target table,
      follow_add_twice user target table⟩

/-- C5: a remove request for favorite, shopping-cart or follow succeeds
exactly when the `(user, target)` pair exists; on success the matching
row is deleted, so the pair is no longer present. -/
theorem relation_remove_spec :
    ∀ (user target : Nat) (table : RelationTable),
      ((favorite_remove user target table).isOk = true ↔
        (user, target) ∈ table)
      ∧ ((shopping_cart_remove user target table).isOk = true ↔
          (user, target) ∈ table)
      ∧ ((follow_remove user target table).isOk = true ↔
          (user, target) ∈ table)
      ∧ ((user, target) ∈ table →
          favorite_remove user target table
              = .ok (table.filter (fun row => row ≠ (user, target)))
            ∧ shopping_cart_remove user target table
              = .ok (table.filter (fun row => row ≠ (user, target)))
            ∧ follow_remove user target table
              = .ok (table.filter (fun row => row ≠ (user, target)))
            ∧ (user, target) ∉
                table.filter (fun row => row ≠ (user, target))) := by
  intro user target table
  refine ⟨?_, ?_, ?_, ?_⟩
  · by_cases h : (user, target) ∈ table
    · rw [favorite_remove_mem h]
      simp [Except.isOk, Except.toBool, h]
    · rw [favorite_remove_not_mem h]
      simp [Except.isOk, Except.toBool, h]
  · by_cases h : (user, target) ∈ table
    · rw [shopping_cart_remove_mem h]
      simp [Except.isOk, Except.toBool, h]
    · rw [shopping_cart_remove_not_mem h]
      simp [Except.isOk, Except.toBool, h]
  · by_cases h : (user, target) ∈ table
    · rw [follow_remove_mem h]
      simp [Except.isOk, Except.toBool, h]
    · rw [follow_remove_not_mem h]
      simp [Except.isOk, Except.toBool, h]
  · intro h
    exact ⟨favorite_remove_mem h, shopping_cart_remove_mem h,
      follow_remove_mem h, mem_filter_ne_self table (user, target)⟩

/-- C5 witness: removing the existing pair `(1, 2)` from a concrete
table succeeds and deletes it. -/
theorem relation_remove_spec_witness :
    favorite_remove 1 2 [(1, 2), (3, 4)]
        = .ok ([(1, 2), (3, 4)].filter (fun row => row ≠ (1, 2)))
      ∧ shopping_cart_remove 1 2 [(1, 2), (3, 4)]
        = .ok ([(1, 2), (3, 4)].filter (fun row => row ≠ (1, 2)))
      ∧ follow_remove 1 2 [(1, 2), (3, 4)]
        = .ok ([(1, 2), (3, 4)].filter (fun row => row ≠ (1, 2)))
      ∧ (1, 2) ∉ [(1, 2), (3, 4)].filter (fun row => row ≠ (1, 2)) :=
  (relation_remove_spec 1 2 [(1, 2), (3, 4)]).2.2.2 (by decide)

/-- C6 counterexample: the token `"0"` contains only alphabet characters,
yet the view neither rejects it with a client error nor redirects —
decoding raises (`int('')`), producing an unhandled server error. -/
theorem short_link_zero_counterexample :
    "0".data.all (fun c => BASE64_ALPHABET.contains c) = true
    ∧ short_link_get "0" = .serverError := by
  exact ⟨by decide, by decide⟩

/-- C6 (amended): the decode endpoint answers a client error exactly when
the token has a character outside the 64-character alphabet; an
alphabet-only token whose decode succeeds is answered with a redirect to
`/recipes/{id}/`, and decode fails (an unhandled error, not a client
rejection) exactly on the empty or all-`'0'` alphabet-only tokens. -/
theorem short_link_token_spec :
    ∀ (token : String) (i : Int),
      ((short_link_get token).isClientError = true ↔
        ¬ token.data.all (fun c => BASE64_ALPHABET.contains c) = true)
      ∧ (token.data.all (fun c => BASE64_ALPHABET.contains c) = true →
          (base64_decode token = some i →
            short_link_get token
              = .redirect ("/recipes/" ++ toString i ++ "/"))
          ∧ (base64_decode token = none ↔ ∀ c ∈ token.data, c = '0')
          ∧ (base64_decode token = none →
              short_link_get token = .serverError)) :=
  fun token _ =>
    ⟨short_link_get_clientError token,
      fun hall =>
        ⟨fun hdec => short_link_get_redirect hall hdec,
          base64_decode_none_iff hall,
          fun hdec => short_link_get_serverError hall hdec⟩⟩

/-- C6 witness: the alphabet-only token `"B"` decodes to 11 and is
redirected. -/
theorem short_link_token_spec_witness :
    short_link_get "B" = .redirect ("/recipes/" ++ toString (11 : Int) ++ "/") :=
  (((short_link_token_spec "B" 11).2 (by decide)).1) (by decide)

/-- C7: a self-follow add request is always rejected, whatever the
current table; consequently no sequence of follow add/remove operations
starting from the empty table ever produces a row with user = author. -/
theorem follow_no_self_invariant :
    (∀ (user : Nat) (follows : RelationTable),
        (follow_add user user follows).isOk = false)
    ∧ ∀ ops : List FollowOp, ∀ p ∈ apply_follow_ops ops, p.1 ≠ p.2 := by
  constructor
  · intro user follows
    rw [follow_add_self rfl]
    rfl
  · intro ops
    exact apply_follow_ops_no_self ops

/-- C7 witness: a concrete self-add is rejected, and the pair reached by
a concrete operation sequence is not a self-follow. -/
theorem follow_no_self_invariant_witness :
    (follow_add 3 3 []).isOk = false ∧ (1 : Nat) ≠ 2 :=
  ⟨follow_no_self_invariant.1 3 [],
    follow_no_self_invariant.2 [FollowOp.add 1 2] (1, 2) (by decide)⟩

/-- C8: the bulk-import command catches every per-file error — a missing
file, malformed JSON, and any other exception are logged and the command
terminates normally — while a well-formed file creates one `Ingredient`
per JSON entry. -/
theorem import_best_effort :
    (∀ file : ImportFile, (import_handle file).isOk = true)
    ∧ import_handle .missing = .ok ⟨[import_error_log .fileNotFound], []⟩
    ∧ import_handle .malformed = .ok ⟨[import_error_log .jsonDecode], []⟩
    ∧ import_handle .badShape = .ok ⟨[import_error_log .other], []⟩
    ∧ ∀ entries : List (String × String),
        import_handle (.parsed entries)
          = .ok ⟨["Данные для модели Ingredient успешно импортированы"],
              entries.map (fun item => ⟨item.1, item.2⟩)⟩ := by
  refine ⟨?_, rfl, rfl, rfl, fun entries => rfl⟩
  intro file
  cases file <;> rfl

/-- C9: a recipe update replaces the recipe's ingredient rows wholesale:
after the update the recipe's `(ingredient, amount)` rows are exactly the
payload entries, and rows of other recipes are untouched. -/
theorem update_replaces_ingredient_rows :
    ∀ (recipe : Nat) (payload : List IngredientEntry)
      (rows : List RecipeIngredientRow),
      ((update_recipe_ingredients recipe payload rows).filter
          (fun row => row.recipe = recipe)).map
            (fun row => (row.ingredient, row.amount)) = payload
      ∧ (update_recipe_ingredients recipe payload rows).filter
            (fun row => row.recipe ≠ recipe)
          = rows.filter (fun row => row.recipe ≠ recipe) :=
  fun recipe payload rows =>
    ⟨update_kept_rows recipe payload rows,
      update_other_rows recipe payload rows⟩

/-- C10: `validate` substitutes the empty list for a missing
`ingredients` or `tags` field, so omitting a field is rejected exactly
like sending the empty list — no payload with an omitted list field
passes. -/
theorem missing_list_fields_rejected :
    ∀ (oi : Option (List IngredientEntry)) (ot : Option (List Nat)),
      validate_recipe ⟨none, ot⟩ = validate_recipe ⟨some [], ot⟩
      ∧ validate_recipe ⟨oi, none⟩ = validate_recipe ⟨oi, some []⟩
      ∧ (validate_recipe ⟨none, ot⟩).isOk = false
      ∧ (validate_recipe ⟨oi, none⟩).isOk = false := by
  intro oi ot
  refine ⟨rfl, rfl, rfl, ?_⟩
  rcases h1 : validate_ingredients (oi.getD []) with e | v
  · unfold validate_recipe
    rw [h1]
    rfl
  · unfold validate_recipe
    rw [h1]
    rfl

end Foodgram
